import Mathlib

/-!
# Verification of the rag-backend document-ingestion and chat pipeline

This file gives a shallow embedding, in Lean, of the parts of the
`rag-backend` repository that the specification's claims are about:

* `app/llm_manager.py` — LLM provider dispatch and (streaming) chat
  response generation;
* `app/document_processing.py` — loader dispatch, chunking, metadata
  enrichment, embedding and vector-store upsert;
* `app/crud/crud_document.py` — persisted document status updates;
* `app/worker.py` — the celery embedding task;
* `app/crud/crud_user_llm_config.py` and
  `app/api/v1/endpoints/user_llm_configs.py` — user LLM configuration
  storage and the set-default endpoint;
* `app/crud/crud_chat.py` — the chat-session tree listing;
* `app/utils/websocket_manager.py` — live-connection bookkeeping and
  broadcasting.

Python-level effects are made explicit: fallible calls return
`Except PyError`, the relational store is passed around as a list of
records, and dynamic-language failure modes that the source actually
hits (calling a function with more positional arguments than its
definition accepts, reading an attribute a SQLAlchemy model does not
map, mutating a set while iterating it) are modelled by the
corresponding error outcomes at the exact program points where CPython
raises them.
-/

/-- Python exceptions that the embedded code can raise.  Each
constructor corresponds to an exception class used by the repository
(`TypeError`, `AttributeError`, `ValueError`, `RuntimeError`, `KeyError`,
`app.core.exceptions.ResourceNotFoundError`, `DatabaseError`, `LLMError`,
FastAPI's `HTTPException`). -/
inductive PyError where
  | typeError (msg : String)
  | attributeError (msg : String)
  | valueError (msg : String)
  | runtimeError (msg : String)
  | keyError (msg : String)
  | resourceNotFound (msg : String)
  | databaseError (msg : String)
  | llmError (msg : String)
  | httpException (status : Nat) (detail : String)
  deriving Repr, DecidableEq

/-! ## Streaming chat generation (`app/llm_manager.py`, lines 206-249)

`generate_streaming_chat_response` assembles a message list, then runs

```
async for chunk in llm.astream(messages):
    yield chunk.content
message_create.response = ""
async for chunk in llm.astream(messages):
    message_create.response += chunk.content
    yield chunk.content
create_message(db, message_create, chat_id, user.id)
```

Each `async for ... in llm.astream(messages)` opens a fresh provider
stream: langchain's `astream` issues a new end-to-end request per call.
We model the provider as a function from the invocation index to the
finite list of text increments that invocation yields. -/

/-- Result of one streaming chat generation run: the increments yielded
to the caller in order, the response text persisted by the final
`create_message` call, and how many times the underlying provider
stream was opened. -/
structure StreamingRunResult where
  yielded : List String
  persistedResponse : String
  providerInvocations : Nat
  deriving Repr, DecidableEq

/-- Embeds `generate_streaming_chat_response` (llm_manager.py 206-249)
after message assembly: the first `async for` loop forwards the chunks
of a first `llm.astream(messages)` call without accumulating them; the
code then re-invokes `llm.astream(messages)`, forwarding and
accumulating the chunks of that second stream; the accumulated text of
the second stream is what `create_message` persists as the response. -/
def generate_streaming_chat_response (astream : Nat → List String) : StreamingRunResult :=
  let firstPass := astream 0
  let secondPass := astream 1
  { yielded := firstPass ++ secondPass
  , persistedResponse := secondPass.foldl (fun acc c => acc ++ c) ""
  , providerInvocations := 2 }

/-- Concatenation, in order, of a list of text increments. -/
def concatChunks (chunks : List String) : String :=
  chunks.foldl (fun acc c => acc ++ c) ""

/-- Whether the first character list leads the second (an executable
prefix test that the kernel can evaluate). -/
def listLeads : List Char → List Char → Bool
  | [], _ => true
  | _ :: _, [] => false
  | a :: as, b :: bs => a == b && listLeads as bs

/-- Python's `str.startswith`, over the underlying character lists. -/
def pyStartsWith (s pre : String) : Bool :=
  listLeads pre.data s.data

/-- Characters before the first `:`. -/
def untilColon : List Char → List Char
  | [] => []
  | c :: cs => if c == ':' then [] else c :: untilColon cs

/-- Characters after the first `:`. -/
def dropToColon : List Char → List Char
  | [] => []
  | c :: cs => if c == ':' then cs else dropToColon cs

/-- Python's `s.split(":")[1]`: the segment between the first and the
second colon. -/
def afterColon (s : String) : String :=
  String.mk (untilColon (dropToColon s.data))

/-! ## Document lifecycle (`app/models/document.py`, `app/crud/crud_document.py`) -/

/-- `DocumentStatus` enum from app/models/document.py lines 7-11. -/
inductive DocumentStatus where
  | queued
  | processing
  | completed
  | failed
  deriving Repr, DecidableEq

/-- The persisted `Document` row (app/models/document.py lines 13-27):
identity, filename, storage path, declared MIME type, lifecycle status,
optional error message, owning user. -/
structure DocumentRec where
  id : Nat
  filename : String
  file_path : String
  mime_type : String
  status : DocumentStatus
  error_message : Option String
  user_id : Nat
  deriving Repr, DecidableEq

/-- The documents table, as the list of its rows. -/
abbrev DocDB := List DocumentRec

/-- `crud_document.get_document` (lines 19-20): first row whose id
matches. -/
def get_document (db : DocDB) (document_id : Nat) : Option DocumentRec :=
  db.find? (fun d => d.id == document_id)

/-- `crud_document.update_document_status` (lines 29-38).  Its Python
definition accepts exactly three positional parameters
`(db, document_id, status)` — there is no `error_message` parameter —
and its body sets only `document.status`.  It raises
`ResourceNotFoundError` when the document does not exist. -/
def update_document_status (db : DocDB) (document_id : Nat) (status : DocumentStatus) :
    Except PyError DocDB :=
  match get_document db document_id with
  | none => .error (.resourceNotFound ("Document " ++ toString document_id ++ " not found"))
  | some _ =>
      .ok (db.map (fun d => if d.id == document_id then { d with status := status } else d))

/-- The `TypeError` CPython raises when a caller passes a fourth
positional argument to `update_document_status`, whose `def` line
declares only `(db, document_id, status)`.  Both failure handlers in
app/document_processing.py (lines 159 and 222-227) perform exactly such
a call: `update_document_status(db, document_id, DocumentStatus.FAILED, str(e))`.
The call raises before the function body can run, so neither the status
nor any error message is written by those handlers. -/
def updateStatusArityError : PyError :=
  .typeError "update_document_status() takes 3 positional arguments but 4 were given"

/-- Models the four-positional-argument call sites
`update_document_status(db, document_id, DocumentStatus.FAILED, str(e))`
in app/document_processing.py: under CPython calling conventions the
call raises `TypeError` without entering the callee, leaving the
database untouched. -/
def update_document_status_with_message (_db : DocDB) (_document_id : Nat)
    (_status : DocumentStatus) (_error_message : String) : Except PyError DocDB :=
  .error updateStatusArityError

/-- Status of a document in the table, if present. -/
def statusOf (db : DocDB) (document_id : Nat) : Option DocumentStatus :=
  (get_document db document_id).map (fun d => d.status)

/-- Error message of a document in the table, if present. -/
def errorMessageOf (db : DocDB) (document_id : Nat) : Option (Option String) :=
  (get_document db document_id).map (fun d => d.error_message)

/-! ## Content extraction and chunking (`app/document_processing.py`) -/

/-- The langchain loader classes that `get_document_loader` dispatches
to. -/
inductive Loader where
  | pyPDFLoader (file_path : String)
  | docx2txtLoader (file_path : String)
  | csvLoader (file_path : String)
  | unstructuredExcelLoader (file_path : String)
  | unstructuredImageLoader (file_path : String)
  deriving Repr, DecidableEq

/-- The `loaders` dispatch table of `get_document_loader`
(document_processing.py lines 103-109), keyed by exact MIME type. -/
def loaderTable (file_path : String) : List (String × Loader) :=
  [ ("application/pdf", .pyPDFLoader file_path)
  , ("application/msword", .docx2txtLoader file_path)
  , ("application/vnd.openxmlformats-officedocument.wordprocessingml.document",
      .docx2txtLoader file_path)
  , ("text/csv", .csvLoader file_path)
  , ("application/vnd.openxmlformats-officedocument.spreadsheetml.sheet",
      .unstructuredExcelLoader file_path) ]

/-- `get_document_loader` (document_processing.py lines 101-118): image
MIME prefixes go to `UnstructuredImageLoader`; otherwise the exact-match
table decides; with no match it raises
`ValueError(f"Unsupported mime type: {mime_type}")`. -/
def get_document_loader (file_path : String) (mime_type : String) : Except PyError Loader :=
  if pyStartsWith mime_type "image/" then
    .ok (.unstructuredImageLoader file_path)
  else
    match (loaderTable file_path).find? (fun p => p.1 == mime_type) with
    | some p => .ok p.2
    | none => .error (.valueError ("Unsupported mime type: " ++ mime_type))

/-- The splitter objects `get_text_splitter` can construct. -/
inductive TextSplitter where
  | markdownHeaderTextSplitter
  | htmlHeaderTextSplitter
  deriving Repr, DecidableEq

/-- The `AttributeError` raised when an undeclared field of the
pydantic `Settings` class (app/core/config.py) is read: `Settings`
declares no `TEXT_SPLITTER_CHUNK_SIZE`, `OPENAI_API_KEY` or
`QDRANT_URL` field, and an undeclared attribute access on a pydantic
model raises `AttributeError`. -/
def settingsAttrError (attr : String) : PyError :=
  .attributeError ("'Settings' object has no attribute '" ++ attr ++ "'")

/-- `get_text_splitter` (document_processing.py lines 67-83): markdown
and HTML get header-aware splitters built without touching settings;
every other MIME type takes the
`RecursiveCharacterTextSplitter(chunk_size=settings.TEXT_SPLITTER_CHUNK_SIZE, ...)`
branch, whose first keyword argument reads a field `Settings` does not
declare, raising `AttributeError` before the splitter is built. -/
def get_text_splitter (mime_type : String) : Except PyError TextSplitter :=
  if mime_type == "text/markdown" then .ok .markdownHeaderTextSplitter
  else if mime_type == "text/html" then .ok .htmlHeaderTextSplitter
  else .error (settingsAttrError "TEXT_SPLITTER_CHUNK_SIZE")

/-- A metadata value as stored in a chunk's metadata mapping / a vector
point's payload (Python values of mixed type). -/
inductive MetaVal where
  | str (s : String)
  | int (n : Int)
  | bool (b : Bool)
  deriving Repr, DecidableEq

/-- A metadata mapping, as an insertion-ordered dict. -/
abbrev MetaDict := List (String × MetaVal)

/-- Membership of a key in a metadata dict. -/
def hasKey (d : MetaDict) (k : String) : Bool :=
  d.any (fun kv => kv.1 == k)

/-- `dict.get(key, default)`. -/
def dictGet (d : MetaDict) (k : String) (default : MetaVal) : MetaVal :=
  match d.find? (fun kv => kv.1 == k) with
  | some kv => kv.2
  | none => default

/-- `dict.update`: existing keys are overwritten in place, new keys are
appended in order. -/
def dictUpdate (d : MetaDict) (upd : MetaDict) : MetaDict :=
  (d.map (fun kv =>
    match upd.find? (fun kv2 => kv2.1 == kv.1) with
    | some kv2 => kv2
    | none => kv)) ++
  upd.filter (fun kv2 => !(d.any (fun kv => kv.1 == kv2.1)))

/-- A content chunk flowing through the pipeline: page content, an
accumulating metadata mapping, and whether it is an `ImageNode`. -/
structure Chunk where
  page_content : String
  metadata : MetaDict
  isImageNode : Bool
  deriving Repr, DecidableEq

/-- Environment of collaborator outcomes for one processing run: what
the loader's `load()` returns, how a successfully constructed text
splitter splits, the HTML-to-text pass, the per-chunk result of
`metadata_chain.invoke({"text": chunk.page_content})`, whether the
Qdrant collection ensure step (get_collection / create_collection)
succeeds, and the outcome of `vector_store.add_documents`. -/
structure ProcEnv where
  loadPages : Loader → Except PyError (List Chunk)
  splitChunks : TextSplitter → List Chunk → List Chunk
  htmlToText : List Chunk → List Chunk
  enrich : String → Except PyError MetaDict
  ensureCollection : Except PyError Unit
  addDocuments : List Chunk → Except PyError Unit

/-- The per-node metadata update performed by
`generate_embeddings_and_store` (document_processing.py lines 143-150):

```
metadata = {
    "document_id": document_id,
    "image_support": isinstance(node, ImageNode),
    "mime_type": node.metadata.get("mime_type", "text/plain"),
    "chunk_type": "image" if isinstance(node, ImageNode) else "text"
}
node.metadata.update(metadata)
```

Note the dict carries no `user_id` entry. -/
def tagNode (document_id : Nat) (node : Chunk) : Chunk :=
  let upd : MetaDict :=
    [ ("document_id", .int document_id)
    , ("image_support", .bool node.isImageNode)
    , ("mime_type", dictGet node.metadata "mime_type" (.str "text/plain"))
    , ("chunk_type", .str (if node.isImageNode then "image" else "text")) ]
  { node with metadata := dictUpdate node.metadata upd }

/-- Decidable equality for `Except` outcomes, so that concrete runs of
the embedded pipeline can be checked by `decide`. -/
instance exceptDecEq {ε α : Type} [DecidableEq ε] [DecidableEq α] :
    DecidableEq (Except ε α) := fun a b =>
  match a, b with
  | .ok x, .ok y =>
      if h : x = y then isTrue (by rw [h]) else isFalse (fun hh => by cases hh; exact h rfl)
  | .error e, .error f =>
      if h : e = f then isTrue (by rw [h]) else isFalse (fun hh => by cases hh; exact h rfl)
  | .ok _, .error _ => isFalse (fun h => by cases h)
  | .error _, .ok _ => isFalse (fun h => by cases h)

/-- Outcome of `generate_embeddings_and_store` and of
`process_document`: the documents table afterwards, the points that
were upserted into the vector store, and either normal return or the
exception that propagated. -/
structure PipelineResult where
  db : DocDB
  upserted : List Chunk
  outcome : Except PyError Unit
  deriving Repr, DecidableEq

/-- `generate_embeddings_and_store` (document_processing.py lines
120-160): ensure the collection exists, tag every node's metadata with
`tagNode`, upsert all nodes, then set the document status to
`completed` with a (legal) three-argument `update_document_status`
call.  Every exception inside the `try` is handled by
`update_document_status(db, document_id, DocumentStatus.FAILED, str(e))`
— a four-positional-argument call that itself raises `TypeError`, which
then propagates in place of the original error, leaving the table
unchanged. -/
def generate_embeddings_and_store (env : ProcEnv) (db : DocDB) (document_id : Nat)
    (nodes : List Chunk) : PipelineResult :=
  match env.ensureCollection with
  | .error _ => { db := db, upserted := [], outcome := .error updateStatusArityError }
  | .ok () =>
      let tagged := nodes.map (tagNode document_id)
      match env.addDocuments tagged with
      | .error _ => { db := db, upserted := [], outcome := .error updateStatusArityError }
      | .ok () =>
          match update_document_status db document_id .completed with
          | .ok db2 => { db := db2, upserted := tagged, outcome := .ok () }
          | .error _ =>
              { db := db, upserted := tagged, outcome := .error updateStatusArityError }

/-- The per-chunk enrichment handler of `process_document`
(document_processing.py lines 210-215):

```
try:
    metadata = metadata_chain.invoke({"text": chunk.page_content})
    chunk.metadata.update(metadata)
except Exception as e:
    logger.error(f"Failed to extract metadata: {e}")
```

A failing invocation is logged and skipped; the chunk keeps its
existing metadata.  In the source this loop is dead code: every
`process_document` run raises before reaching it (see
`process_document` below). -/
def enrichChunk (env : ProcEnv) (chunk : Chunk) : Chunk :=
  match env.enrich chunk.page_content with
  | .ok md => { chunk with metadata := dictUpdate chunk.metadata md }
  | .error _ => chunk

/-- `process_document` (document_processing.py lines 187-228): load via
the dispatched loader, construct the MIME-selected splitter, split,
optionally HTML-normalize, then build the enrichment chain's LLM:

```
llm = OpenAI(model="gpt-3.5-turbo", api_key=settings.OPENAI_API_KEY, temperature=0)
```

`Settings` declares no `OPENAI_API_KEY` field, so this read raises
`AttributeError` — and for every MIME type that has a loader (PDF,
Word, CSV, spreadsheet, images) the splitter construction already
raised `AttributeError` on the undeclared `TEXT_SPLITTER_CHUNK_SIZE`
before that (markdown and HTML, the two types with settings-free
splitters, never pass `get_document_loader`).  The per-chunk enrichment
loop (lines 210-215) and the `generate_embeddings_and_store` call
(line 218) are therefore unreachable.  Any exception raised inside the
`try` — the loader-dispatch `ValueError` or either `AttributeError` —
is handled by a four-positional-argument
`update_document_status(..., FAILED, str(e))` call, which raises
`TypeError` before updating anything, and that `TypeError` propagates
out. -/
def process_document (env : ProcEnv) (db : DocDB) (doc : DocumentRec) : PipelineResult :=
  match get_document_loader doc.file_path doc.mime_type with
  | .error _ => { db := db, upserted := [], outcome := .error updateStatusArityError }
  | .ok loader =>
      match env.loadPages loader with
      | .error _ => { db := db, upserted := [], outcome := .error updateStatusArityError }
      | .ok pages =>
          match get_text_splitter doc.mime_type with
          | .error _ => { db := db, upserted := [], outcome := .error updateStatusArityError }
          | .ok splitter =>
              let chunks := env.splitChunks splitter pages
              let _chunks :=
                if doc.mime_type == "text/html" then env.htmlToText chunks else chunks
              -- Lines 204-208: the `OpenAI(..., api_key=settings.OPENAI_API_KEY, ...)`
              -- construction raises `AttributeError`; the handler's four-argument
              -- update call turns it into the propagating `TypeError`.
              { db := db, upserted := [], outcome := .error updateStatusArityError }

/-! ## The celery worker (`app/worker.py`) -/

/-- A chunk row as `generate_embeddings_task` expects to read from
`document.chunks` (worker.py lines 84-92). -/
structure WorkerChunk where
  id : Nat
  content : String
  page_number : Nat
  chunk_number : Nat
  deriving Repr, DecidableEq

/-- The metadata dict `generate_embeddings_task` attaches to one chunk
(worker.py lines 86-92): `chunk_id`, `document_id`, `user_id`,
`page_number`, `chunk_number` — and nothing else; in particular no
`chunk_type` and no `mime_type` entry. -/
def worker_chunk_metadata (document_id : Nat) (user_id : Nat) (chunk : WorkerChunk) : MetaDict :=
  [ ("chunk_id", .int chunk.id)
  , ("document_id", .int document_id)
  , ("user_id", .int user_id)
  , ("page_number", .int chunk.page_number)
  , ("chunk_number", .int chunk.chunk_number) ]

/-- The dict `generate_embeddings_task` returns (worker.py 106-110 and
120-124). -/
structure TaskReturn where
  success : Bool
  document_id : Nat
  message : Option String
  deriving Repr, DecidableEq

/-- Result of one `generate_embeddings_task` run: table afterwards,
upserted `(text, metadata)` pairs, and the returned dict.  The task
never re-raises: its `except` handler returns an error dict. -/
structure WorkerTaskResult where
  db : DocDB
  upserted : List (String × MetaDict)
  ret : TaskReturn
  deriving Repr, DecidableEq

/-- `generate_embeddings_task` (worker.py lines 35-124).  After
loading the document and setting its status to `processing`, the task
initializes the embedding model from `settings.EMBEDDING_MODEL`:

* an `openai:` value reads `settings.OPENAI_API_KEY` (line 59), a field
  `Settings` does not declare, raising `AttributeError`;
* a `huggingface:` value builds `OllamaEmbeddings` without touching
  settings, but the subsequent
  `QdrantClient(url=settings.QDRANT_URL, ...)` (line 70) reads the
  undeclared `QDRANT_URL` field, raising `AttributeError`;
* any other value raises `ValueError` (line 66).

Every branch therefore raises before the `document.chunks` read at
line 84 (itself an `AttributeError`: the `Document` model maps no
`chunks` relationship) and before any upsert.  The task's
`except Exception` handler then sets the document status to `failed`
via a legal three-argument `update_document_status` call — which has no
error-message parameter, so `error_message` is left untouched — and
returns an error dict instead of propagating. -/
def generate_embeddings_task (db : DocDB) (document_id : Nat)
    (embedding_model_setting : String) : WorkerTaskResult :=
  match get_document db document_id with
  | none =>
      -- DatabaseError(f"Document {document_id} not found") is raised and
      -- caught by the handler, whose own update call also fails to find
      -- the document (ResourceNotFoundError, caught and logged).
      { db := db, upserted := []
      , ret := { success := false, document_id := document_id
               , message := some ("Document " ++ toString document_id ++ " not found") } }
  | some _ =>
      match update_document_status db document_id .processing with
      | .error _ =>
          { db := db, upserted := []
          , ret := { success := false, document_id := document_id, message := some "" } }
      | .ok db1 =>
          let fail : String → WorkerTaskResult := fun msg =>
            let db2 := match update_document_status db1 document_id .failed with
              | .ok d => d
              | .error _ => db1
            { db := db2, upserted := []
            , ret := { success := false, document_id := document_id
                     , message := some msg } }
          if pyStartsWith embedding_model_setting "openai:" then
            -- Line 59: settings.OPENAI_API_KEY — undeclared field.
            fail "'Settings' object has no attribute 'OPENAI_API_KEY'"
          else if pyStartsWith embedding_model_setting "huggingface:" then
            -- Line 70: settings.QDRANT_URL — undeclared field.
            fail "'Settings' object has no attribute 'QDRANT_URL'"
          else
            -- Line 66: ValueError(f"Unsupported embedding model: ...").
            fail ("Unsupported embedding model: " ++ embedding_model_setting)

/-! ## User LLM configurations (`app/models/user_llm_config.py`,
`app/crud/crud_user_llm_config.py`,
`app/api/v1/endpoints/user_llm_configs.py`) -/

/-- The persisted `UserLLMConfig` row.  The mapped columns
(app/models/user_llm_config.py lines 5-15) are exactly `id`, `user_id`,
`model_name`, `api_key`, `base_url` and `model_type`; the model maps
no `is_default` column and no sampling-parameter columns. -/
structure UserLLMConfigRec where
  id : Nat
  user_id : Nat
  model_name : String
  api_key : Option String
  base_url : Option String
  model_type : String
  deriving Repr, DecidableEq

/-- The user_llm_configs table, as the list of its rows. -/
abbrev ConfigDB := List UserLLMConfigRec

/-- `crud_user_llm_config.get_user_llm_config` (line 14): first row with
the given id. -/
def get_user_llm_config (db : ConfigDB) (config_id : Nat) : Option UserLLMConfigRec :=
  db.find? (fun c => c.id == config_id)

/-- `crud_user_llm_config.get_user_llm_configs` (line 17): the user's
rows (offset 0, limit 100). -/
def get_user_llm_configs (db : ConfigDB) (user_id : Nat) : List UserLLMConfigRec :=
  (db.filter (fun c => c.user_id == user_id)).take 100

/-- `crud_user_llm_config.get_default_user_llm_config` (lines 41-42):

```
db.query(UserLLMConfig).filter(UserLLMConfig.user_id == user_id)
  .order_by(UserLLMConfig.id).first()
```

i.e. the user's row with the smallest primary key — independent of any
set-default call ever made. -/
def get_default_user_llm_config (db : ConfigDB) (user_id : Nat) : Option UserLLMConfigRec :=
  (db.filter (fun c => c.user_id == user_id)).foldl
    (fun acc c =>
      match acc with
      | none => some c
      | some m => if c.id < m.id then some c else some m)
    none

/-- The declared fields of the `UserLLMConfigUpdate` pydantic schema
(app/schemas/user_llm_config.py lines 51-61).  There is no `is_default`
field. -/
def userLLMConfigUpdateFields : List String :=
  [ "model_name", "api_key", "base_url", "model_type", "max_tokens"
  , "top_k", "top_p", "temperature", "repetition_penalty", "seed" ]

/-- Constructing a `UserLLMConfigUpdate` from keyword arguments and
taking `model_dump(exclude_unset=True)`: pydantic v2's default model
config silently ignores unknown constructor keywords, so the dump
contains exactly the recognized keywords that were passed. -/
def modelDumpExcludeUnset (kwargs : MetaDict) : MetaDict :=
  kwargs.filter (fun kv => userLLMConfigUpdateFields.contains kv.1)

/-- One `setattr(db_user_llm_config, key, value)` step of
`update_user_llm_config` (crud_user_llm_config.py lines 26-27).  Keys
that are mapped columns update the row; schema fields that are not
mapped columns (the sampling parameters) set only a transient Python
attribute, which the commit does not persist — the stored row is
unchanged by them. -/
def setConfigAttr (c : UserLLMConfigRec) (kv : String × MetaVal) : UserLLMConfigRec :=
  match kv with
  | ("model_name", .str s) => { c with model_name := s }
  | ("api_key", .str s) => { c with api_key := some s }
  | ("base_url", .str s) => { c with base_url := some s }
  | ("model_type", .str s) => { c with model_type := s }
  | _ => c

/-- `crud_user_llm_config.update_user_llm_config` (lines 20-31) applied
to the row with the given id: every pair of
`model_dump(exclude_unset=True)` is `setattr`-ed onto the row, then
committed. -/
def update_user_llm_config (db : ConfigDB) (config_id : Nat) (update_data : MetaDict) :
    ConfigDB :=
  db.map (fun c => if c.id == config_id then update_data.foldl setConfigAttr c else c)

/-- `set_default_config` (user_llm_configs.py lines 248-279): after the
ownership check, every other config of the user is updated with
`UserLLMConfigUpdate(is_default=False)` and the chosen one with
`UserLLMConfigUpdate(is_default=True)`.  Since `is_default` is not a
declared schema field, both updates dump to the empty mapping. -/
def set_default_config (db : ConfigDB) (current_user : Nat) (config_id : Nat) :
    Except PyError ConfigDB :=
  match get_user_llm_config db config_id with
  | none => .error (.httpException 404 "LLM configuration not found")
  | some c =>
      if c.user_id != current_user then
        .error (.httpException 404 "LLM configuration not found")
      else
        let db1 := (get_user_llm_configs db current_user).foldl
          (fun d cfg =>
            if cfg.id != config_id then
              update_user_llm_config d cfg.id (modelDumpExcludeUnset [("is_default", .bool false)])
            else d)
          db
        .ok (update_user_llm_config db1 config_id
          (modelDumpExcludeUnset [("is_default", .bool true)]))

/-! ## Chat session tree listing (`app/models/chat.py`,
`app/crud/crud_chat.py`, `app/schemas/chat.py`) -/

/-- A persisted `ChatSession` row (app/models/chat.py lines 6-21):
identity, owner, optional parent link, soft-delete flag, update
timestamp (modelled as a number for ordering). -/
structure ChatSessionRec where
  id : Nat
  user_id : Nat
  parent_id : Option Nat
  is_deleted : Bool
  updated_at : Nat
  deriving Repr, DecidableEq

/-- The chat_sessions table, as the list of its rows. -/
abbrev ChatDB := List ChatSessionRec

/-- The SQLAlchemy `children` relationship of a session: every row whose
`parent_id` points at it, with no filter on `is_deleted`. -/
def childrenOf (db : ChatDB) (session_id : Nat) : List ChatSessionRec :=
  db.filter (fun s => s.parent_id == some session_id)

/-- A node of the serialized session tree, as produced by the
`ChatSessionResponse` schema (app/schemas/chat.py lines 41-55), whose
`children` field recursively serializes the relationship above. -/
inductive SessionTree where
  | node (session : ChatSessionRec) (children : List SessionTree)
  deriving Repr

/-- Materializes the serialized tree below a session, with fuel bounding
the recursion depth (the table is finite and acyclic in the scenarios
considered; fuel `db.length` always suffices for them). -/
def buildTree (db : ChatDB) : Nat → ChatSessionRec → SessionTree
  | 0, s => .node s []
  | fuel + 1, s => .node s ((childrenOf db s.id).map (buildTree db fuel))

/-- Insertion step for ordering sessions by `updated_at` descending. -/
def insertByUpdatedDesc (s : ChatSessionRec) : List ChatSessionRec → List ChatSessionRec
  | [] => [s]
  | t :: ts =>
      if s.updated_at ≥ t.updated_at then s :: t :: ts
      else t :: insertByUpdatedDesc s ts

/-- `order_by(desc(ChatSession.updated_at))`. -/
def sortByUpdatedDesc (l : List ChatSessionRec) : List ChatSessionRec :=
  l.foldr insertByUpdatedDesc []

/-- `crud_chat.get_user_chat_sessions` (lines 48-72) followed by
response serialization: the roots are the user's sessions with no
parent and `is_deleted == False`, ordered by `updated_at` descending;
each root is serialized together with its recursive `children`
relationship.  The helper `_process_children` (lines 66-71) only skips
soft-deleted children when attaching `last_message` and recursing for
that attachment — it does not remove them from the `children`
collection that the response schema serializes. -/
def get_user_chat_sessions (db : ChatDB) (user_id : Nat) : List SessionTree :=
  let roots := sortByUpdatedDesc (db.filter (fun s =>
    s.user_id == user_id && s.parent_id == none && s.is_deleted == false))
  roots.map (buildTree db db.length)

mutual

/-- Whether a serialized tree contains a session with the given id. -/
def treeContains (session_id : Nat) : SessionTree → Bool
  | .node s cs => s.id == session_id || forestContains session_id cs

/-- Whether any tree of a forest contains a session with the given id. -/
def forestContains (session_id : Nat) : List SessionTree → Bool
  | [] => false
  | t :: ts => treeContains session_id t || forestContains session_id ts

end

mutual

/-- Whether a serialized tree contains a soft-deleted session. -/
def treeHasDeleted : SessionTree → Bool
  | .node s cs => s.is_deleted || forestHasDeleted cs

/-- Whether any tree of a forest contains a soft-deleted session. -/
def forestHasDeleted : List SessionTree → Bool
  | [] => false
  | t :: ts => treeHasDeleted t || forestHasDeleted ts

end

/-! ## LLM provider dispatch (`app/llm_manager.py` lines 51-130,
`app/utils/llm_utils.py` lines 22-135) -/

/-- The provider chat objects the two `get_llm` functions can
construct. -/
inductive LLMHandle where
  | chatOpenAI (model : String) (base_url : Option String) (streaming : Bool)
  | chatGoogleGenerativeAI (model : String) (streaming : Bool)
  | chatAnthropic (model_name : String)
  | chatMistralAI (model : String)
  | huggingFaceEndpoint (endpoint_url : Option String)
  | ollamaLLM (model : String)
  | openRouterChat (model : String) (fallback_models : List String)
      (provider_order : List String) (allow_fallbacks : Bool)
  deriving Repr, DecidableEq

/-- Reading an attribute that the SQLAlchemy `UserLLMConfig` model does
not map (it maps only `id`, `user_id`, `model_name`, `api_key`,
`base_url`, `model_type`): CPython raises `AttributeError`. -/
def ormConfigAttrError (attr : String) : PyError :=
  .attributeError ("'UserLLMConfig' object has no attribute '" ++ attr ++ "'")

/-- `llm_utils.get_openrouter_llm` (llm_utils.py lines 22-58).  Inside
the `try`, the expression `llm_config.temperature or 0.7` reads the
unmapped `temperature` attribute of the ORM row, raising
`AttributeError`; the handler finds no `status_code` on it and raises
`LLMError(f"Failed to initialize OpenRouter LLM: {str(e)}")`.  The
openrouter fallback-routing payload (lines 40-52) is therefore never
built for an ORM config; `openRouterChat` records what it would be. -/
def get_openrouter_llm (_llm_config : UserLLMConfigRec) : Except PyError LLMHandle :=
  .error (.llmError
    "Failed to initialize OpenRouter LLM: 'UserLLMConfig' object has no attribute 'temperature'")

/-- `llm_manager.get_llm` (llm_manager.py lines 51-130).  Dispatch on
`user_llm_config.model_type` covers, in order, `openai`, `gemini`,
`claude`, `mistral`, `huggingface`, `openrouter`:

* the first four build their chat objects from mapped columns and
  literal parameters;
* the `huggingface` branch reads `user_llm_config.max_tokens` (line 99),
  an unmapped attribute, so it raises `AttributeError`, which the
  function-level `except` logs and re-raises;
* the `openrouter` branch tail-calls `get_openrouter_llm`;
* any other `model_type` (including `llama`) matches no branch of the
  `elif` chain, and the function returns `None`;
* with no config at all, the default falls back on
  `settings.EMBEDDING_MODEL`: a `huggingface:` value yields a
  `HuggingFaceEndpoint`, anything else raises `ValueError`.

`.ok none` models the implicit `return None`. -/
def llm_manager_get_llm (user_llm_config : Option UserLLMConfigRec)
    (embedding_model_setting : String) (streaming : Bool) :
    Except PyError (Option LLMHandle) :=
  match user_llm_config with
  | some cfg =>
      if cfg.model_type == "openai" then
        .ok (some (.chatOpenAI cfg.model_name cfg.base_url streaming))
      else if cfg.model_type == "gemini" then
        .ok (some (.chatGoogleGenerativeAI cfg.model_name streaming))
      else if cfg.model_type == "claude" then
        .ok (some (.chatAnthropic cfg.model_name))
      else if cfg.model_type == "mistral" then
        .ok (some (.chatMistralAI cfg.model_name))
      else if cfg.model_type == "huggingface" then
        .error (ormConfigAttrError "max_tokens")
      else if cfg.model_type == "openrouter" then
        match get_openrouter_llm cfg with
        | .ok h => .ok (some h)
        | .error e => .error e
      else
        .ok none
  | none =>
      if pyStartsWith embedding_model_setting "huggingface:" then
        .ok (some (.huggingFaceEndpoint
          (some ("https://api-inference.huggingface.co/models/"
            ++ afterColon embedding_model_setting))))
      else
        .error (.valueError
          ("Unsupported default embedding model: " ++ embedding_model_setting))

/-- `llm_utils.get_llm` (llm_utils.py lines 60-135).  Before its `try`
block, lines 66-70 read `temperature`, `max_tokens`, `top_p`,
`frequency_penalty` and `presence_penalty` from the ORM config; none of
these is a mapped column, so the first read raises `AttributeError`,
which propagates unwrapped.  The `model_type` dispatch of lines 74-129
(whose unknown-type branch raises `ValueError`, re-wrapped by the
handler into `HTTPException(500, ...)`) is unreachable for ORM rows and
is kept below the attribute reads exactly as in the source. -/
def llm_utils_get_llm (llm_config : UserLLMConfigRec) : Except PyError LLMHandle := do
  let model_name := llm_config.model_name
  let model_type := llm_config.model_type
  let _temperature ← (Except.error (ormConfigAttrError "temperature") : Except PyError Unit)
  let _max_tokens ← (Except.error (ormConfigAttrError "max_tokens") : Except PyError Unit)
  let _top_p ← (Except.error (ormConfigAttrError "top_p") : Except PyError Unit)
  let _frequency_penalty ←
    (Except.error (ormConfigAttrError "frequency_penalty") : Except PyError Unit)
  let _presence_penalty ←
    (Except.error (ormConfigAttrError "presence_penalty") : Except PyError Unit)
  if model_type == "openai" then
    pure (.chatOpenAI model_name none true)
  else if model_type == "gemini" then
    pure (.chatGoogleGenerativeAI model_name true)
  else if model_type == "mistral" then
    pure (.chatMistralAI model_name)
  else if model_type == "claude" then
    pure (.chatAnthropic model_name)
  else if model_type == "llama" then
    pure (.ollamaLLM model_name)
  else if model_type == "openrouter" then
    get_openrouter_llm llm_config
  else
    throw (.httpException 500
      ("Error creating LLM instance: Unsupported model type: " ++ model_type))

/-! ## WebSocket connection bookkeeping (`app/utils/websocket_manager.py`)

State is the triple of `active_connections` (chat id to the ordered
connection set), `typing_users` (chat id to the typing-user set) and
`connection_map` (connection to its `(chat_id, user_id)` registration),
mirroring `WebSocketManager.__init__` (lines 36-50).  Connections are
identified by numbers.  CPython sets are modelled as duplicate-free
lists in insertion order, and a set iterator raises
`RuntimeError("Set changed size during iteration")` on its next step
whenever the set's size has changed since the iterator was created —
which is exactly what happens when `broadcast_message`'s `except`
branch calls `disconnect` on the set being iterated.  Delivery success
is modelled per connection by a `send : WS → Bool` environment (a dead
peer's `send_json` raises).  The mutually recursive
`disconnect` / `broadcast_typing_status` / `broadcast_message` calls
are bounded by explicit fuel; every theorem below holds for every fuel,
and concrete runs use fuel exceeding the actual nesting depth. -/

/-- A live connection (one `WebSocket` object). -/
abbrev WS := Nat

/-- The `WebSocketManager` bookkeeping state. -/
structure WSManager where
  active : Nat → List WS
  typing : Nat → List Nat
  connMap : WS → Option (Nat × Nat)

/-- Pointwise update of a chat-indexed table. -/
def updAt {α : Type} (f : Nat → α) (k : Nat) (v : α) : Nat → α :=
  fun k2 => if k2 = k then v else f k2

/-- `set.add`: append if absent (insertion-ordered set). -/
def setAdd (l : List WS) (w : WS) : List WS :=
  if w ∈ l then l else l ++ [w]

/-- The manager state right after `__init__`: all tables empty. -/
def emptyManager : WSManager :=
  { active := fun _ => [], typing := fun _ => [], connMap := fun _ => none }

/-- `WebSocketManager.connect` (lines 52-76): add the websocket to
`active_connections[chat_id]`, record `(chat_id, user_id)` in
`connection_map`, and send the current typing status to the new client
(a transport action that alters no bookkeeping). -/
def connect (st : WSManager) (ws : WS) (chat_id : Nat) (user_id : Nat) : WSManager :=
  { st with
    active := updAt st.active chat_id (setAdd (st.active chat_id) ws)
  , connMap := fun w => if w = ws then some (chat_id, user_id) else st.connMap w }

/-- Result of one `broadcast_message` call: the state afterwards, the
connections that received the message, in iteration order, and the
exception that aborted the broadcast, if any. -/
structure BroadcastResult where
  st : WSManager
  delivered : List WS
  err : Option PyError

/-- The `RuntimeError` the CPython set iterator raises once the set's
size differs from its size at iterator creation. -/
def setChangedError : PyError :=
  .runtimeError "Set changed size during iteration"

/-- Lines 92-94 of `disconnect`: discard the websocket from
`active_connections[chat_id]` and delete its `connection_map` entry. -/
def disconnectCore (st : WSManager) (ws : WS) (chat_id : Nat) : WSManager :=
  { st with
    active := updAt st.active chat_id ((st.active chat_id).filter (fun w => w != ws))
  , connMap := fun w => if w = ws then none else st.connMap w }

/-- Line 97 of `disconnect`: remove the user from
`typing_users[chat_id]`. -/
def removeTyping (st : WSManager) (chat_id : Nat) (user_id : Nat) : WSManager :=
  { st with
    typing := updAt st.typing chat_id ((st.typing chat_id).filter (fun u => u != user_id)) }

/-- The `for connection in self.active_connections[chat_id]` loop of
`broadcast_message` (lines 110-118), parameterized by the `disconnect`
behaviour `disc` used in the `except` branch.  Before yielding each
element (and before reporting exhaustion) the CPython set iterator
compares the set's current size with its size at iterator creation and
raises `RuntimeError` on any difference; a failed send looks the
connection up in `connection_map` (raising `KeyError` when absent) and
disconnects it — mutating the very set being iterated. -/
def broadcastLoopWith (send : WS → Bool) (disc : WSManager → WS → Nat → Nat → WSManager)
    (chat_id : Nat) (startSize : Nat) :
    WSManager → List WS → List WS → BroadcastResult
  | st, conns, delivered =>
      if (st.active chat_id).length ≠ startSize then
        { st := st, delivered := delivered, err := some setChangedError }
      else
        match conns with
        | [] => { st := st, delivered := delivered, err := none }
        | c :: rest =>
            if send c then
              broadcastLoopWith send disc chat_id startSize st rest (delivered ++ [c])
            else
              match st.connMap c with
              | none =>
                  { st := st, delivered := delivered
                  , err := some (.keyError "connection not in connection_map") }
              | some (ccid, cuid) =>
                  broadcastLoopWith send disc chat_id startSize (disc st c ccid cuid)
                    rest delivered

/-- The two mutually recursive manager operations, packaged so that the
recursion is structural on an explicit fuel bound. -/
inductive EngineCall where
  | broadcast (st : WSManager) (chat_id : Nat)
  | disconnectConn (st : WSManager) (ws : WS) (chat_id : Nat) (user_id : Nat)

/-- The mutually recursive pair `broadcast_message` (lines 101-118) /
`disconnect` (lines 78-99), with `broadcast_typing_status` (lines
120-128) inlined as the state-relevant part of `disconnect`'s typing
cleanup: a `disconnect` whose user was typing broadcasts the corrected
typing set, and that broadcast disconnects any peer whose send fails,
recursively.  The fuel bounds this nesting depth; at fuel 0 the nested
broadcast is skipped (the state-altering discard and map/typing
deletions still happen), and every theorem below holds for every fuel,
with concrete runs using fuel exceeding the actual nesting depth. -/
def wsEngine (send : WS → Bool) : Nat → EngineCall → BroadcastResult
  | 0, .broadcast st _ => { st := st, delivered := [], err := none }
  | 0, .disconnectConn st ws chat_id user_id =>
      let st1 := disconnectCore st ws chat_id
      if (st1.typing chat_id).contains user_id then
        { st := removeTyping st1 chat_id user_id, delivered := [], err := none }
      else
        { st := st1, delivered := [], err := none }
  | fuel + 1, .broadcast st chat_id =>
      broadcastLoopWith send
        (fun st2 ws ccid cuid => (wsEngine send fuel (.disconnectConn st2 ws ccid cuid)).st)
        chat_id (st.active chat_id).length st (st.active chat_id) []
  | fuel + 1, .disconnectConn st ws chat_id user_id =>
      let st1 := disconnectCore st ws chat_id
      if (st1.typing chat_id).contains user_id then
        let st2 := removeTyping st1 chat_id user_id
        { st := (wsEngine send fuel (.broadcast st2 chat_id)).st, delivered := [], err := none }
      else
        { st := st1, delivered := [], err := none }

/-- `WebSocketManager.broadcast_message` with the given fuel bound. -/
def broadcastMsgF (fuel : Nat) (send : WS → Bool) (st : WSManager) (chat_id : Nat) :
    BroadcastResult :=
  wsEngine send fuel (.broadcast st chat_id)

/-- `WebSocketManager.disconnect` with the given fuel bound. -/
def disconnectF (fuel : Nat) (send : WS → Bool) (st : WSManager) (ws : WS)
    (chat_id : Nat) (user_id : Nat) : WSManager :=
  (wsEngine send fuel (.disconnectConn st ws chat_id user_id)).st

/-- Default fuel for a user-level `disconnect` call: bounds the nesting
depth of typing-status broadcasts triggered by dead peers.  All
invariant theorems below hold for every fuel. -/
def defaultFuel : Nat := 1000

/-- A user-level call on the manager: the two operations that mutate
the connection bookkeeping. -/
inductive WSOp where
  | connect (ws : WS) (chat_id : Nat) (user_id : Nat)
  | disconnect (ws : WS) (chat_id : Nat) (user_id : Nat)

/-- Applies one call, with the given per-connection send outcomes. -/
def applyOp (fuel : Nat) (send : WS → Bool) (st : WSManager) : WSOp → WSManager
  | .connect ws chat_id user_id => connect st ws chat_id user_id
  | .disconnect ws chat_id user_id => disconnectF fuel send st ws chat_id user_id

/-- Applies a sequence of calls in order. -/
def applyOps (fuel : Nat) (send : WS → Bool) (st : WSManager) (ops : List WSOp) : WSManager :=
  ops.foldl (applyOp fuel send) st

/-- The mutual-consistency invariant of the claim: a websocket is a
member of `active_connections[chat_id]` exactly when `connection_map`
registers it under that `chat_id`. -/
def ManagerInv (st : WSManager) : Prop :=
  ∀ chat_id ws, ws ∈ st.active chat_id ↔ ∃ uid, st.connMap ws = some (chat_id, uid)

/-- Well-formedness of one call in a state: the `chat_id` argument
agrees with the websocket's current registration, when it has one
(freshly accepted websockets have none). -/
def WFOp (st : WSManager) : WSOp → Prop
  | .connect ws chat_id _ => ∀ p, st.connMap ws = some p → p.1 = chat_id
  | .disconnect ws chat_id _ => ∀ p, st.connMap ws = some p → p.1 = chat_id

/-- Well-formedness of a call sequence: each call is well-formed in the
state reached by its predecessors. -/
def WFOps (fuel : Nat) (send : WS → Bool) : WSManager → List WSOp → Prop
  | _, [] => True
  | st, op :: rest => WFOp st op ∧ WFOps fuel send (applyOp fuel send st op) rest

/-- A websocket is absent from the manager's bookkeeping entirely. -/
def AbsentWS (st : WSManager) (ws : WS) : Prop :=
  st.connMap ws = none ∧ ∀ chat_id, ws ∉ st.active chat_id

/-! ## Concrete fixtures for the claim theorems -/

/-- A processing environment whose collaborator steps all succeed
trivially (used for runs that fail before, or do not exercise, the
corresponding step). -/
def envPlain : ProcEnv :=
  { loadPages := fun _ => .ok []
  , splitChunks := fun _ cs => cs
  , htmlToText := fun cs => cs
  , enrich := fun _ => .ok []
  , ensureCollection := .ok ()
  , addDocuments := fun _ => .ok () }

/-- A document whose declared MIME type matches no extractor, already
claimed by a worker (status `processing`). -/
def docUnknownC2 : DocumentRec :=
  { id := 5, filename := "report.bin", file_path := "/uploads/report.bin"
  , mime_type := "application/x-unknown", status := .processing
  , error_message := none, user_id := 7 }

/-- A second unsupported-MIME document, for the unsupported-format
scenario. -/
def docUnknownC5 : DocumentRec :=
  { id := 9, filename := "data.xyz", file_path := "/uploads/data.xyz"
  , mime_type := "application/x-unknown", status := .processing
  , error_message := none, user_id := 8 }

/-- A PDF document owned by user 7, mid-processing. -/
def docPdfC4 : DocumentRec :=
  { id := 42, filename := "report.pdf", file_path := "/uploads/report.pdf"
  , mime_type := "application/pdf", status := .processing
  , error_message := none, user_id := 7 }

/-- A text chunk as produced by loading and splitting a PDF. -/
def nodeC4 : Chunk :=
  { page_content := "alpha beta", metadata := [("source", .str "/uploads/report.pdf")]
  , isImageNode := false }

/-- A chunk row as the worker task would read it. -/
def wchunkC4 : WorkerChunk :=
  { id := 1, content := "alpha beta", page_number := 1, chunk_number := 0 }

/-- Environment for the enrichment scenario: two one-chunk pages load;
every abstractable collaborator outcome is benign (splitting is the
identity, collection and upsert would succeed), and the per-chunk
enrichment outcome fails exactly on the chunk whose text is
`bad text`. -/
def envEnrichC9 : ProcEnv :=
  { loadPages := fun _ =>
      .ok [ { page_content := "good text", metadata := [], isImageNode := false }
          , { page_content := "bad text", metadata := [], isImageNode := false } ]
  , splitChunks := fun _ cs => cs
  , htmlToText := fun cs => cs
  , enrich := fun s =>
      if s == "bad text" then .error (.llmError "Failed to extract metadata")
      else .ok [("title", .str "T")]
  , ensureCollection := .ok ()
  , addDocuments := fun _ => .ok () }

/-- The document for the enrichment scenario. -/
def docC9 : DocumentRec :=
  { id := 11, filename := "doc.pdf", file_path := "/uploads/doc.pdf"
  , mime_type := "application/pdf", status := .processing
  , error_message := none, user_id := 7 }

/-- The chunk of the enrichment scenario whose enrichment outcome is a
failure. -/
def chunkBadC9 : Chunk :=
  { page_content := "bad text", metadata := [], isImageNode := false }

/-- User 7's two stored LLM configs: ids 1 and 2. -/
def configsC3 : ConfigDB :=
  [ { id := 1, user_id := 7, model_name := "gpt-3.5-turbo", api_key := none
    , base_url := none, model_type := "openai" }
  , { id := 2, user_id := 7, model_name := "gemini-pro", api_key := none
    , base_url := none, model_type := "gemini" } ]

/-- User 7's chat sessions: a live root (id 1), a soft-deleted child
(id 2) and a live grandchild (id 3) under the deleted child. -/
def sessionsC6 : ChatDB :=
  [ { id := 1, user_id := 7, parent_id := none, is_deleted := false, updated_at := 10 }
  , { id := 2, user_id := 7, parent_id := some 1, is_deleted := true, updated_at := 5 }
  , { id := 3, user_id := 7, parent_id := some 2, is_deleted := false, updated_at := 4 } ]

/-- A stored config for a supported `llama` model (`llama-3.2` appears
in the endpoint's SUPPORTED_MODELS list). -/
def llamaCfg : UserLLMConfigRec :=
  { id := 3, user_id := 7, model_name := "llama-3.2", api_key := none
  , base_url := none, model_type := "llama" }

/-- A stored config with `model_type = "huggingface"`. -/
def hfCfg : UserLLMConfigRec :=
  { id := 4, user_id := 7, model_name := "some-hf-model", api_key := none
  , base_url := some "https://hf.example/endpoint", model_type := "huggingface" }

/-- Send outcomes for the broadcast scenario: connection 10 is dead
(its `send_json` raises), every other connection is alive. -/
def sendC7 : WS → Bool := fun w => w != 10

/-- A manager with two connections, 10 and 20, registered in chat 1,
nobody typing. -/
def stC7 : WSManager :=
  { active := fun c => if c = 1 then [10, 20] else []
  , typing := fun _ => []
  , connMap := fun w =>
      if w = 10 then some (1, 100) else if w = 20 then some (1, 200) else none }

/-- Send outcomes where every connection is alive. -/
def sendOK : WS → Bool := fun _ => true

/-! ## Claim theorems -/

/-- C1: the claim asserts that the LLM stream is consumed in a single
pass, the provider is invoked exactly once per run, and the
concatenation of the yielded increments equals the persisted response.
On the code, `generate_streaming_chat_response` opens the provider
stream twice (lines 234 and 239 of llm_manager.py): with a provider
that answers `"Hello world"` in two increments on every invocation, the
run invokes the provider twice, yields `"Hello worldHello world"` in
total, and persists only `"Hello world"`. -/
theorem C1_streaming_double_invocation :
    (generate_streaming_chat_response (fun _ => ["Hello", " world"])).providerInvocations
        = 2 ∧
    concatChunks (generate_streaming_chat_response (fun _ => ["Hello", " world"])).yielded
        = "Hello worldHello world" ∧
    (generate_streaming_chat_response (fun _ => ["Hello", " world"])).persistedResponse
        = "Hello world" ∧
    concatChunks (generate_streaming_chat_response (fun _ => ["Hello", " world"])).yielded
        ≠ (generate_streaming_chat_response (fun _ => ["Hello", " world"])).persistedResponse := by
  refine ⟨rfl, rfl, rfl, ?_⟩
  decide

/-- C2: the claim asserts that every fatal pipeline error updates the
document to status `failed` with the error text before propagating.  On
the code, the failure handler of `process_document` calls
`update_document_status` with four positional arguments while the
function accepts three, so the call raises `TypeError` and the
propagated error leaves the stored row — status and `error_message` —
exactly as it was. -/
theorem C2_fatal_error_persists_nothing :
    (process_document envPlain [docUnknownC2] docUnknownC2).outcome
        = .error updateStatusArityError ∧
    (process_document envPlain [docUnknownC2] docUnknownC2).db = [docUnknownC2] ∧
    statusOf (process_document envPlain [docUnknownC2] docUnknownC2).db 5
        = some .processing ∧
    errorMessageOf (process_document envPlain [docUnknownC2] docUnknownC2).db 5
        = some none := by
  refine ⟨rfl, rfl, rfl, rfl⟩

/-- C5: the claim asserts that an upload with MIME type
`application/x-unknown` ends with persisted status `failed` and an
error message naming the type.  On the code, `get_document_loader`
does raise the naming `ValueError`, and no index entries are created —
but the failure handler's four-positional-argument
`update_document_status` call raises `TypeError`, so the persisted
status never becomes `failed` and no error message is stored. -/
theorem C5_unsupported_mime_not_marked_failed :
    get_document_loader "/uploads/data.xyz" "application/x-unknown"
        = .error (.valueError "Unsupported mime type: application/x-unknown") ∧
    (process_document envPlain [docUnknownC5] docUnknownC5).upserted = [] ∧
    (process_document envPlain [docUnknownC5] docUnknownC5).outcome
        = .error updateStatusArityError ∧
    statusOf (process_document envPlain [docUnknownC5] docUnknownC5).db 9
        ≠ some .failed ∧
    errorMessageOf (process_document envPlain [docUnknownC5] docUnknownC5).db 9
        = some none := by
  refine ⟨rfl, rfl, rfl, ?_, rfl⟩
  decide

/-- C4: the claim asserts every upserted payload carries at least
`document_id`, `user_id`, `chunk_type` and `mime_type`.  On the code,
the payload built by `generate_embeddings_and_store` carries
`document_id`, `image_support`, `mime_type` and `chunk_type` but no
`user_id`; the worker task's payload carries `chunk_id`, `document_id`,
`user_id`, `page_number` and `chunk_number` but neither `chunk_type`
nor `mime_type`. -/
theorem C4_payload_missing_required_fields :
    (generate_embeddings_and_store envPlain [docPdfC4] 42 [nodeC4]).upserted.all
        (fun n => hasKey n.metadata "document_id" && hasKey n.metadata "chunk_type"
          && hasKey n.metadata "mime_type" && !(hasKey n.metadata "user_id")) = true ∧
    (generate_embeddings_and_store envPlain [docPdfC4] 42 [nodeC4]).upserted ≠ [] ∧
    hasKey (worker_chunk_metadata 42 7 wchunkC4) "document_id" = true ∧
    hasKey (worker_chunk_metadata 42 7 wchunkC4) "user_id" = true ∧
    hasKey (worker_chunk_metadata 42 7 wchunkC4) "chunk_type" = false ∧
    hasKey (worker_chunk_metadata 42 7 wchunkC4) "mime_type" = false := by
  refine ⟨rfl, ?_, rfl, rfl, rfl, rfl⟩
  decide

/-- C3: the claim asserts that a set-default call clears the default
flag on the user's other configs and that the config subsequently
resolved as the user's default is the most recently set one.  On the
code, the `UserLLMConfig` model maps no `is_default` column and the
`UserLLMConfigUpdate` schema declares no `is_default` field, so
`set_default_config` persists nothing at all, and
`get_default_user_llm_config` always resolves the user's lowest-id
config: after setting config 2 as default, the resolved default is
still config 1. -/
theorem C3_set_default_persists_nothing :
    set_default_config configsC3 7 2 = .ok configsC3 ∧
    (get_default_user_llm_config configsC3 7).map (fun c => c.id) = some 1 := by
  refine ⟨rfl, rfl⟩

/-- C6: the claim asserts that the session-tree listing excludes every
node whose ancestor chain contains a soft-deleted session.  On the
code, `get_user_chat_sessions` filters soft-deleted sessions only at
root level, and `_process_children` merely skips them when attaching
last messages — the serialized `children` relationship still contains
them: with live root 1, soft-deleted child 2 and live grandchild 3,
the listing for user 7 contains both node 2 and node 3. -/
theorem C6_deleted_subtree_in_listing :
    forestContains 2 (get_user_chat_sessions sessionsC6 7) = true ∧
    forestContains 3 (get_user_chat_sessions sessionsC6 7) = true ∧
    forestHasDeleted (get_user_chat_sessions sessionsC6 7) = true := by
  refine ⟨rfl, rfl, rfl⟩

/-- C8: the claim asserts a total dispatch over {openai, gemini,
mistral, claude, llama, huggingface, openrouter} in which every
enumerated type yields a usable chat interface and anything else
raises.  On the code, `llm_manager.get_llm` silently returns `None`
for a stored `llama` config (the elif chain has no `llama` branch and
no final else), its `huggingface` branch raises `AttributeError`
because the ORM model maps none of the sampling-parameter columns it
reads, and `llm_utils.get_llm` raises `AttributeError` for every
stored config because it reads the unmapped `temperature` attribute
before dispatching. -/
theorem C8_provider_dispatch_not_total :
    llm_manager_get_llm (some llamaCfg) "openai" true = .ok none ∧
    llm_manager_get_llm (some hfCfg) "openai" false
        = .error (ormConfigAttrError "max_tokens") ∧
    llm_utils_get_llm llamaCfg = .error (ormConfigAttrError "temperature") := by
  refine ⟨rfl, rfl, rfl⟩

/-- C7: the claim asserts that a send failure during a broadcast is
contained: only the dead connection is removed, every other connection
still receives the message, and the broadcast never aborts.  On the
code, the `except` branch of `broadcast_message` calls `disconnect`,
which discards the dead connection from the very set being iterated;
the iterator's next step then raises
`RuntimeError("Set changed size during iteration")`, so the broadcast
aborts and the remaining connections receive nothing: with connections
10 (dead) and 20 (alive) in chat 1, nobody receives the message. -/
theorem C7_dead_peer_aborts_broadcast :
    (broadcastMsgF 5 sendC7 stC7 1).delivered = [] ∧
    (broadcastMsgF 5 sendC7 stC7 1).err = some setChangedError ∧
    (broadcastMsgF 5 sendC7 stC7 1).st.connMap 20 = some (1, 200) ∧
    20 ∈ (broadcastMsgF 5 sendC7 stC7 1).st.active 1 := by
  refine ⟨rfl, rfl, rfl, ?_⟩
  decide

/-- C9: the claim asserts that a failure of the metadata-enrichment
step on an individual chunk is logged and skipped, with every chunk
still proceeding to embedding and indexing and the document never
moving to `failed` because of it.  On the code, no run can ever perform
per-chunk enrichment: for every MIME type that has a loader the
splitter construction reads the undeclared
`settings.TEXT_SPLITTER_CHUNK_SIZE` and raises `AttributeError`, and
the enrichment chain's own LLM construction (lines 204-208) reads the
undeclared `settings.OPENAI_API_KEY` — so the skip-and-continue loop of
lines 210-215 is dead code (as `enrichChunk` it would indeed keep a
failing chunk's metadata), every run aborts through the handler's
arity `TypeError` with nothing enriched or upserted, and no document
ends `completed`. -/
theorem C9_enrichment_loop_unreachable :
    get_text_splitter docC9.mime_type
        = .error (settingsAttrError "TEXT_SPLITTER_CHUNK_SIZE") ∧
    (process_document envEnrichC9 [docC9] docC9).outcome = .error updateStatusArityError ∧
    (process_document envEnrichC9 [docC9] docC9).upserted = [] ∧
    (process_document envEnrichC9 [docC9] docC9).db = [docC9] ∧
    statusOf (process_document envEnrichC9 [docC9] docC9).db docC9.id
        = some .processing ∧
    enrichChunk envEnrichC9 chunkBadC9 = chunkBadC9 := by
  refine ⟨rfl, rfl, rfl, rfl, rfl, ?_⟩
  rfl

/-- Membership in an insertion-ordered set after `add`. -/
theorem mem_setAdd (l : List WS) (x w : WS) : w ∈ setAdd l x ↔ w ∈ l ∨ w = x := by
  unfold setAdd
  by_cases h : x ∈ l
  · simp only [if_pos h]
    constructor
    · exact fun hw => Or.inl hw
    · rintro (hw | rfl)
      · exact hw
      · exact h
  · simp [if_neg h]

/-- Updating a chat's entry reads back at that chat. -/
theorem updAt_self {α : Type} (f : Nat → α) (k : Nat) (v : α) : updAt f k v k = v := by
  simp [updAt]

/-- Updating a chat's entry leaves other chats unchanged. -/
theorem updAt_other {α : Type} (f : Nat → α) (k : Nat) (v : α) (k2 : Nat) (h : k2 ≠ k) :
    updAt f k v k2 = f k2 := by
  simp [updAt, h]

/-- `disconnectCore` preserves the bookkeeping invariant whenever the
`chat_id` argument agrees with the websocket's registration (when it
has one). -/
theorem managerInv_disconnectCore (st : WSManager) (ws : WS) (chat_id : Nat)
    (hInv : ManagerInv st) (hm : ∀ p, st.connMap ws = some p → p.1 = chat_id) :
    ManagerInv (disconnectCore st ws chat_id) := by
  intro cid w
  unfold disconnectCore
  by_cases hw : w = ws
  · subst hw
    simp only
    constructor
    · intro hmem
      by_cases hc : cid = chat_id
      · subst hc
        rw [updAt_self] at hmem
        have := (List.mem_filter.mp hmem).2
        simp at this
      · rw [updAt_other _ _ _ _ hc] at hmem
        obtain ⟨u, hu⟩ := (hInv cid w).mp hmem
        exact absurd (hm _ hu) hc
    · rintro ⟨u, hu⟩
      simp at hu
  · simp only
    have hmap : (if w = ws then none else st.connMap w) = st.connMap w := by
      simp [hw]
    rw [hmap]
    by_cases hc : cid = chat_id
    · subst hc
      rw [updAt_self]
      constructor
      · intro hmem
        exact (hInv cid w).mp (List.mem_filter.mp hmem).1
      · intro hu
        refine List.mem_filter.mpr ⟨(hInv cid w).mpr hu, ?_⟩
        simp [hw]
    · rw [updAt_other _ _ _ _ hc]
      exact hInv cid w

/-- `disconnectCore` never adds bookkeeping entries: a websocket absent
from both structures stays absent. -/
theorem absent_disconnectCore (st : WSManager) (ws0 ws : WS) (chat_id : Nat)
    (h : AbsentWS st ws0) : AbsentWS (disconnectCore st ws chat_id) ws0 := by
  obtain ⟨hmap, hact⟩ := h
  constructor
  · unfold disconnectCore
    simp only
    by_cases hw : ws0 = ws <;> simp [hw, hmap]
  · intro cid
    unfold disconnectCore
    simp only
    by_cases hc : cid = chat_id
    · subst hc
      rw [updAt_self]
      intro hmem
      exact hact cid (List.mem_filter.mp hmem).1
    · rw [updAt_other _ _ _ _ hc]
      exact hact cid

/-- The broadcast loop preserves any state predicate that its
disconnect behaviour preserves on registered connections. -/
theorem broadcastLoopWith_preserves (P : WSManager → Prop) (send : WS → Bool)
    (disc : WSManager → WS → Nat → Nat → WSManager)
    (hdisc : ∀ st ws ccid cuid, P st → st.connMap ws = some (ccid, cuid) →
      P (disc st ws ccid cuid))
    (chat_id startSize : Nat) :
    ∀ conns st delivered, P st →
      P (broadcastLoopWith send disc chat_id startSize st conns delivered).st := by
  intro conns
  induction conns with
  | nil =>
      intro st delivered hP
      rw [broadcastLoopWith]
      by_cases hsz : (st.active chat_id).length ≠ startSize
      · rw [if_pos hsz]
        exact hP
      · rw [if_neg hsz]
        exact hP
  | cons c rest ih =>
      intro st delivered hP
      rw [broadcastLoopWith]
      by_cases hsz : (st.active chat_id).length ≠ startSize
      · rw [if_pos hsz]
        exact hP
      · rw [if_neg hsz]
        by_cases hsend : send c
        · rw [if_pos hsend]
          exact ih st (delivered ++ [c]) hP
        · rw [if_neg hsend]
          cases hmc : st.connMap c with
          | none => exact hP
          | some p =>
              cases p with
              | mk ccid cuid => exact ih (disc st c ccid cuid) delivered (hdisc st c ccid cuid hP hmc)

/-- The engine preserves any state predicate that `disconnectCore`
preserves on correctly addressed calls and `removeTyping` preserves. -/
theorem wsEngine_preserves (P : WSManager → Prop)
    (hCore : ∀ st ws chat_id, P st → (∀ p, st.connMap ws = some p → p.1 = chat_id) →
      P (disconnectCore st ws chat_id))
    (hTyping : ∀ st chat_id user_id, P st → P (removeTyping st chat_id user_id))
    (send : WS → Bool) :
    ∀ fuel call,
      (match call with
       | .broadcast st _ => P st
       | .disconnectConn st ws chat_id _ =>
           P st ∧ (∀ p, st.connMap ws = some p → p.1 = chat_id)) →
      P (wsEngine send fuel call).st := by
  intro fuel
  induction fuel with
  | zero =>
      intro call hcall
      cases call with
      | broadcast st cid => exact hcall
      | disconnectConn st ws cid uid =>
          obtain ⟨hP, hm⟩ := hcall
          have h1 := hCore st ws cid hP hm
          rw [wsEngine]
          by_cases ht : ((disconnectCore st ws cid).typing cid).contains uid
          · simp only [ht, if_true]
            exact hTyping _ _ _ h1
          · simp only [ht, if_false]
            exact h1
  | succ f ih =>
      intro call hcall
      cases call with
      | broadcast st cid =>
          rw [wsEngine]
          refine broadcastLoopWith_preserves P send _ ?_ cid (st.active cid).length
            (st.active cid) st [] hcall
          intro st2 ws ccid cuid hP2 hmap
          refine ih (.disconnectConn st2 ws ccid cuid) ⟨hP2, ?_⟩
          intro p hp
          rw [hmap] at hp
          cases hp
          rfl
      | disconnectConn st ws cid uid =>
          obtain ⟨hP, hm⟩ := hcall
          have h1 := hCore st ws cid hP hm
          rw [wsEngine]
          by_cases ht : ((disconnectCore st ws cid).typing cid).contains uid
          · simp only [ht, if_true]
            exact ih (.broadcast (removeTyping (disconnectCore st ws cid) cid uid) cid)
              (hTyping _ _ _ h1)
          · simp only [ht, if_false]
            exact h1

/-- `connect` preserves the bookkeeping invariant whenever the websocket
is currently unregistered or already registered under the same chat. -/
theorem managerInv_connect (st : WSManager) (ws : WS) (chat_id user_id : Nat)
    (hInv : ManagerInv st) (hm : ∀ p, st.connMap ws = some p → p.1 = chat_id) :
    ManagerInv (connect st ws chat_id user_id) := by
  intro cid w
  unfold connect
  by_cases hw : w = ws
  · subst hw
    simp only
    constructor
    · intro hmem
      by_cases hc : cid = chat_id
      · subst hc
        exact ⟨user_id, by simp⟩
      · rw [updAt_other _ _ _ _ hc] at hmem
        obtain ⟨u, hu⟩ := (hInv cid w).mp hmem
        exact absurd (hm _ hu) hc
    · rintro ⟨u, hu⟩
      have hu2 : some (chat_id, user_id) = some (cid, u) := hu
      have hcid : chat_id = cid := by
        injection hu2 with h
        exact congrArg Prod.fst h
      subst hcid
      have : w ∈ updAt st.active chat_id (setAdd (st.active chat_id) w) chat_id := by
        rw [updAt_self]
        exact (mem_setAdd _ _ _).mpr (Or.inr rfl)
      exact this
  · simp only
    have hmap : (if w = ws then some (chat_id, user_id) else st.connMap w) = st.connMap w := by
      simp [hw]
    rw [hmap]
    by_cases hc : cid = chat_id
    · subst hc
      rw [updAt_self]
      constructor
      · intro hmem
        rcases (mem_setAdd _ _ _).mp hmem with hmem2 | rfl
        · exact (hInv cid w).mp hmem2
        · exact absurd rfl hw
      · intro hu
        exact (mem_setAdd _ _ _).mpr (Or.inl ((hInv cid w).mpr hu))
    · rw [updAt_other _ _ _ _ hc]
      exact hInv cid w

/-- `removeTyping` does not change the `active` or `connMap` fields, so
it preserves absence outright. -/
theorem absent_removeTyping (st : WSManager) (ws0 : WS) (chat_id user_id : Nat)
    (h : AbsentWS st ws0) : AbsentWS (removeTyping st chat_id user_id) ws0 :=
  h

/-- After a correctly addressed `disconnect`, the websocket is gone
from both bookkeeping structures, nested typing broadcasts included. -/
theorem absent_after_disconnectF (fuel : Nat) (send : WS → Bool) (st : WSManager)
    (ws : WS) (chat_id user_id : Nat)
    (hInv : ManagerInv st) (hm : ∀ p, st.connMap ws = some p → p.1 = chat_id) :
    AbsentWS (disconnectF fuel send st ws chat_id user_id) ws := by
  have hAbs1 : AbsentWS (disconnectCore st ws chat_id) ws := by
    constructor
    · unfold disconnectCore
      simp
    · intro cid
      unfold disconnectCore
      simp only
      by_cases hc : cid = chat_id
      · subst hc
        rw [updAt_self]
        intro hmem
        have := (List.mem_filter.mp hmem).2
        simp at this
      · rw [updAt_other _ _ _ _ hc]
        intro hmem
        obtain ⟨u, hu⟩ := (hInv cid ws).mp hmem
        exact absurd (hm _ hu) hc
  unfold disconnectF
  cases fuel with
  | zero =>
      rw [wsEngine]
      by_cases ht : ((disconnectCore st ws chat_id).typing chat_id).contains user_id
      · simp only [ht, if_true]
        exact absent_removeTyping _ _ _ _ hAbs1
      · simp only [ht, if_false]
        exact hAbs1
  | succ f =>
      rw [wsEngine]
      by_cases ht : ((disconnectCore st ws chat_id).typing chat_id).contains user_id
      · simp only [ht, if_true]
        exact wsEngine_preserves (fun s => AbsentWS s ws)
          (fun s w c hA _ => absent_disconnectCore s ws w c hA)
          (fun s c u hA => absent_removeTyping s ws c u hA)
          send f (.broadcast (removeTyping (disconnectCore st ws chat_id) chat_id user_id)
            chat_id)
          (absent_removeTyping _ _ _ _ hAbs1)
      · simp only [ht, if_false]
        exact hAbs1

/-- One well-formed call preserves the bookkeeping invariant. -/
theorem managerInv_applyOp (fuel : Nat) (send : WS → Bool) (st : WSManager) (op : WSOp)
    (hInv : ManagerInv st) (hwf : WFOp st op) :
    ManagerInv (applyOp fuel send st op) := by
  cases op with
  | connect ws chat_id user_id => exact managerInv_connect st ws chat_id user_id hInv hwf
  | disconnect ws chat_id user_id =>
      exact wsEngine_preserves ManagerInv managerInv_disconnectCore
        (fun _ _ _ h => h) send fuel (.disconnectConn st ws chat_id user_id) ⟨hInv, hwf⟩

/-- A well-formed call sequence preserves the bookkeeping invariant. -/
theorem managerInv_applyOps (fuel : Nat) (send : WS → Bool) :
    ∀ ops st, ManagerInv st → WFOps fuel send st ops →
      ManagerInv (applyOps fuel send st ops) := by
  intro ops
  induction ops with
  | nil => intro st hInv _; exact hInv
  | cons op rest ih =>
      intro st hInv hwf
      obtain ⟨hop, hrest⟩ := hwf
      exact ih (applyOp fuel send st op) (managerInv_applyOp fuel send st op hInv hop) hrest

/-- The freshly initialized manager satisfies the invariant. -/
theorem managerInv_empty : ManagerInv emptyManager := by
  intro cid ws
  simp [emptyManager]

/-- Well-formedness of a concatenated sequence splits. -/
theorem wfops_append (fuel : Nat) (send : WS → Bool) :
    ∀ ops1 ops2 st, WFOps fuel send st (ops1 ++ ops2) ↔
      WFOps fuel send st ops1 ∧ WFOps fuel send (applyOps fuel send st ops1) ops2 := by
  intro ops1
  induction ops1 with
  | nil =>
      intro ops2 st
      simp [WFOps, applyOps]
  | cons op rest ih =>
      intro ops2 st
      constructor
      · rintro ⟨hop, hrest⟩
        rcases (ih ops2 (applyOp fuel send st op)).mp hrest with ⟨h1, h2⟩
        exact ⟨⟨hop, h1⟩, h2⟩
      · rintro ⟨⟨hop, h1⟩, h2⟩
        exact ⟨hop, (ih ops2 (applyOp fuel send st op)).mpr ⟨h1, h2⟩⟩

/-- C10 counterexample: the claim quantifies over every sequence of
connect/disconnect calls, but connecting the same websocket object to a
second chat without disconnecting it first breaks the stated
iff-invariant: after `connect(10, 1, 7); connect(10, 2, 7)` the
websocket is still a member of `active_connections[1]` while
`connection_map` registers it under chat 2. -/
theorem C10_reconnect_breaks_invariant :
    ¬ ManagerInv (applyOps defaultFuel sendOK emptyManager
      [.connect 10 1 7, .connect 10 2 7]) := by
  intro h
  have hmem : (10 : WS) ∈ (applyOps defaultFuel sendOK emptyManager
      [.connect 10 1 7, .connect 10 2 7]).active 1 := by decide
  obtain ⟨uid, hu⟩ := (h 1 10).mp hmem
  have hmap : (applyOps defaultFuel sendOK emptyManager
      [.connect 10 1 7, .connect 10 2 7]).connMap 10 = some (2, 7) := rfl
  rw [hmap] at hu
  simp at hu

/-- C10 amended: the bookkeeping invariant holds after every
well-formed sequence of connect/disconnect calls — one in which each
call's `chat_id` agrees with the websocket's current registration when
it has one (connecting an already-registered websocket to a different
chat, or disconnecting it with a different `chat_id`, is excluded) —
and after a well-formed sequence ending in `disconnect(ws, chat_id,
user_id)` that websocket belongs to neither `active_connections` nor
`connection_map`.  This holds for every fuel bound and every
send-outcome environment. -/
theorem C10_wellformed_bookkeeping_consistent (fuel : Nat) (send : WS → Bool)
    (ops : List WSOp) (ws : WS) (chat_id user_id : Nat)
    (hwf : WFOps fuel send emptyManager (ops ++ [.disconnect ws chat_id user_id])) :
    ManagerInv (applyOps fuel send emptyManager (ops ++ [.disconnect ws chat_id user_id])) ∧
    AbsentWS (applyOps fuel send emptyManager (ops ++ [.disconnect ws chat_id user_id]))
      ws := by
  obtain ⟨hwf1, hwf2⟩ := (wfops_append fuel send ops [.disconnect ws chat_id user_id]
    emptyManager).mp hwf
  obtain ⟨hop, -⟩ := hwf2
  have hInvPre : ManagerInv (applyOps fuel send emptyManager ops) :=
    managerInv_applyOps fuel send ops emptyManager managerInv_empty hwf1
  have happ : applyOps fuel send emptyManager (ops ++ [.disconnect ws chat_id user_id])
      = applyOp fuel send (applyOps fuel send emptyManager ops)
          (.disconnect ws chat_id user_id) := by
    simp [applyOps, List.foldl_append]
  rw [happ]
  constructor
  · exact managerInv_applyOp fuel send _ _ hInvPre hop
  · exact absent_after_disconnectF fuel send _ ws chat_id user_id hInvPre hop

/-- C10 witness: connecting websocket 10 to chat 1 and disconnecting it
with matching arguments is a well-formed sequence; afterwards the
invariant holds and websocket 10 is in neither structure. -/
theorem C10_wellformed_bookkeeping_consistent_witness :
    ManagerInv (applyOps 3 sendOK emptyManager
      ([.connect 10 1 7] ++ [.disconnect 10 1 7])) ∧
    AbsentWS (applyOps 3 sendOK emptyManager
      ([.connect 10 1 7] ++ [.disconnect 10 1 7])) 10 :=
  C10_wellformed_bookkeeping_consistent 3 sendOK [.connect 10 1 7] 10 1 7
    (by
      refine ⟨?_, ?_, trivial⟩
      · intro p hp
        exact absurd hp (by simp [emptyManager])
      · intro p hp
        have hp2 : some ((1 : Nat), (7 : Nat)) = some p := hp
        injection hp2 with h
        rw [← h])
